import Mathlib

/-!
Verification of the PID-requester registry subsystem of the scms-upload
repository (src/pid_requester/models.py and src/xmlsps/xml_sps_lib.py).

The Django models are embedded shallowly: a database table becomes a
`List` of records, a model instance becomes a structure of `Option String`
fields (Python `None` is `none`, and Python truthiness of a string field is
`truthyS`), raising an exception becomes returning `PyResult.raised`, and
`datetime` timestamps become `Nat`.  The random v3 generator
(`pid_requester.v3_gen.generates`) and the time-derived v2 generator
(`PidRequesterXML._v2_generates`) are modelled as a parameter
`gen : Nat → String` giving the successive candidate tokens, and the
`while True` allocation loops become fuel-indexed recursions where running
out of fuel (`none`) stands for the loop never terminating.
-/

/-- Python truthiness of an optional string: `None` and `""` are falsy. -/
def truthyS : Option String → Bool
  | none => false
  | some s => !s.isEmpty

/-- Python truthiness of a nullable boolean field: only `True` is truthy. -/
def truthyB : Option Bool → Bool
  | some true => true
  | _ => false

/-- The exceptions of `pid_requester.exceptions` relevant to the claims,
plus `allocDiverged`, which stands for the `while True` identifier
allocation loop never terminating. -/
inductive RegError where
  | forbidden
  | notEnoughParams
  | multipleReturned
  | allocDiverged
deriving DecidableEq, Repr

/-- Result of running a Python method that may raise: `ok` is a normal
return, `raised` an exception propagating to the caller. -/
inductive PyResult (α : Type) where
  | ok (a : α)
  | raised (e : RegError)
deriving DecidableEq, Repr

/-- The query-tier keys used by `PidRequesterXMLAdapter.query_list` and
consumed by `validate_query_params` / `objects.get(**params)`. -/
inductive QField where
  | journal__issn_print
  | journal__issn_electronic
  | article_pub_year
  | issue__pub_year
  | issue__volume
  | issue__number
  | issue__suppl
  | main_doi
  | fpage
  | fpage_seq
  | lpage
  | elocation_id
  | z_surnames
  | z_collab
  | z_links
  | z_article_titles_texts
  | z_partial_body
  | pkg_name
deriving DecidableEq, Repr

/-- A query tier: a Python dict from field names to nullable values.  A key
absent from the list is an unconstrained field; a key present with value
`none` constrains the field to be null (Django `field=None`). -/
abbrev QueryParams := List (QField × Option String)

/-- `params.get(key)`: `None` both when the key is absent and when it is
present with value `None`, exactly as Python `dict.get`. -/
def pget (ps : QueryParams) (f : QField) : Option String :=
  (ps.lookup f).join

/-- `XMLJournal`: the journal identity pair, as stored by
`XMLJournal.get_or_create(issn_electronic, issn_print)`. -/
structure XMLJournalRec where
  issn_electronic : Option String
  issn_print : Option String
deriving DecidableEq, Repr

/-- `XMLIssue`: the issue tuple, as stored by `XMLIssue.get_or_create`. -/
structure XMLIssueRec where
  journal : Option XMLJournalRec
  volume : Option String
  number : Option String
  suppl : Option String
  pub_year : Option String
deriving DecidableEq, Repr

/-- The data of a `SyncFailure` row attached to a record. -/
structure SyncFailureRec where
  error_type : Option String
  error_msg : Option String
deriving DecidableEq, Repr

/-- `XMLVersion`: one stored version of the XML, as built by
`XMLVersion.create` (creator and back-reference omitted: no claim
mentions them). -/
structure XMLVersionRec where
  finger_print : String
  pkg_name : String
  xml_content : String
deriving DecidableEq, Repr

/-- `XMLVersion.create(creator, pid_requester_xml, pkg_name, finger_print,
xml_content)`, restricted to its data fields. -/
def xml_version_create (pkg_name finger_print xml_content : String) : XMLVersionRec :=
  { finger_print := finger_print, pkg_name := pkg_name, xml_content := xml_content }

/-- `PidRequesterXML`: the registry record.  Field defaults mirror the
Django column defaults (`synchronized` has `default=False`; everything else
is nullable with no default).  The audit fields `creator`/`updated_by` are
omitted: no claim mentions them. -/
structure RegRecord where
  journal : Option XMLJournalRec := none
  issue : Option XMLIssueRec := none
  current_version : Option XMLVersionRec := none
  pkg_name : Option String := none
  v3 : Option String := none
  v2 : Option String := none
  aop_pid : Option String := none
  elocation_id : Option String := none
  fpage : Option String := none
  fpage_seq : Option String := none
  lpage : Option String := none
  article_pub_year : Option String := none
  main_toc_section : Option String := none
  main_doi : Option String := none
  z_article_titles_texts : Option String := none
  z_surnames : Option String := none
  z_collab : Option String := none
  z_links : Option String := none
  z_partial_body : Option String := none
  related_items : List String := []
  synchronized : Option Bool := some false
  sync_failure : Option SyncFailureRec := none
  created : Option Nat := none
  updated : Option Nat := none
deriving DecidableEq, Repr

/-- `PidRequesterXML.is_aop`: `self.issue is None`. -/
def rec_is_aop (r : RegRecord) : Bool :=
  r.issue.isNone

/-- The value a registry record exposes for a query key, following the
Django double-underscore joins (`journal__issn_print` etc.).  A join
through a null foreign key yields null, matching Django's LEFT OUTER JOIN
+ IS NULL semantics for `field=None` lookups. -/
def rfield (r : RegRecord) : QField → Option String
  | .journal__issn_print => r.journal.bind (fun j => j.issn_print)
  | .journal__issn_electronic => r.journal.bind (fun j => j.issn_electronic)
  | .article_pub_year => r.article_pub_year
  | .issue__pub_year => r.issue.bind (fun i => i.pub_year)
  | .issue__volume => r.issue.bind (fun i => i.volume)
  | .issue__number => r.issue.bind (fun i => i.number)
  | .issue__suppl => r.issue.bind (fun i => i.suppl)
  | .main_doi => r.main_doi
  | .fpage => r.fpage
  | .fpage_seq => r.fpage_seq
  | .lpage => r.lpage
  | .elocation_id => r.elocation_id
  | .z_surnames => r.z_surnames
  | .z_collab => r.z_collab
  | .z_links => r.z_links
  | .z_article_titles_texts => r.z_article_titles_texts
  | .z_partial_body => r.z_partial_body
  | .pkg_name => r.pkg_name

/-- `cls.objects.get(**params)` match test: every key in the dict must
equal the record's value for that key. -/
def matchesParams (ps : QueryParams) (r : RegRecord) : Bool :=
  ps.all (fun pv => decide (rfield r pv.1 = pv.2))

/-- The incoming document, `PidRequesterXMLAdapter`: the identifier slots
and the metadata fields read by `PidRequesterXML`.  `body` stands for the
XML content apart from the three identifier slots; `query_list` is the
ordered tier list the adapter builds for `_query_document`. -/
structure Adapter where
  body : String := ""
  v2 : Option String := none
  v3 : Option String := none
  aop_pid : Option String := none
  journal_issn_electronic : Option String := none
  journal_issn_print : Option String := none
  volume : Option String := none
  number : Option String := none
  suppl : Option String := none
  pub_year : Option String := none
  article_pub_year : Option String := none
  fpage : Option String := none
  fpage_seq : Option String := none
  lpage : Option String := none
  main_doi : Option String := none
  main_toc_section : Option String := none
  elocation_id : Option String := none
  z_article_titles_texts : Option String := none
  z_surnames : Option String := none
  z_collab : Option String := none
  z_links : Option String := none
  z_partial_body : Option String := none
  related_items : List String := []
  query_list : List QueryParams := []
deriving DecidableEq, Repr

/-- `XMLWithPre.is_aop` (src/xmlsps/xml_sps_lib.py): `not any((volume,
number, suppl))`. -/
def adapter_is_aop (a : Adapter) : Bool :=
  !(truthyS a.volume || truthyS a.number || truthyS a.suppl)

/-- `XMLWithPre.tostring` after `update_ids`, abstracted: the serialized
bytes are determined by the body and the three identifier slots. -/
def adapter_tostring (a : Adapter) : String :=
  a.body ++ "|" ++ (a.v2.getD "") ++ "|" ++ (a.v3.getD "") ++ "|" ++ (a.aop_pid.getD "")

/-- `PidRequesterXML._is_valid_pid`: `bool(value and len(value) == 23)`. -/
def is_valid_pid : Option String → Bool
  | none => false
  | some s => !s.isEmpty && decide (s.length = 23)

/-- `PidRequesterXML._is_registered_pid(v2, v3, aop_pid)`: picks the first
truthy argument (v3, then v2, then aop_pid) and asks whether any stored
record carries it.  When all three are falsy the Python code falls through
with `kwargs` unbound (a NameError); no caller reaches that case, and the
model returns `false` there. -/
def is_registered_pid (store : List RegRecord) (v2 v3 aop_pid : Option String) : Bool :=
  if truthyS v3 then store.any (fun r => decide (r.v3 = v3))
  else if truthyS v2 then store.any (fun r => decide (r.v2 = v2))
  else if truthyS aop_pid then store.any (fun r => decide (r.aop_pid = aop_pid))
  else false

/-- `PidRequesterXML._get_unique_v3`: draw candidates `gen k, gen (k+1), …`
until one is not registered.  `fuel = 0` models the loop never finding a
free token. -/
def get_unique_v3 (store : List RegRecord) (gen : Nat → String) : Nat → Nat → Option String
  | _, 0 => none
  | k, fuel + 1 =>
    if is_registered_pid store none (some (gen k)) none then
      get_unique_v3 store gen (k + 1) fuel
    else
      some (gen k)

/-- `PidRequesterXML._get_unique_v2`: same loop over the time-derived v2
candidates. -/
def get_unique_v2 (store : List RegRecord) (gen : Nat → String) : Nat → Nat → Option String
  | _, 0 => none
  | k, fuel + 1 =>
    if is_registered_pid store (some (gen k)) none none then
      get_unique_v2 store gen (k + 1) fuel
    else
      some (gen k)

/-- `PidRequesterXML._add_pid_v3`: take the registered v3 when a record was
resolved; otherwise allocate a fresh one when the incoming v3 is invalid or
already taken, else keep it. -/
def add_pid_v3 (store : List RegRecord) (gen : Nat → String) (k fuel : Nat)
    (a : Adapter) (registered : Option RegRecord) : Option Adapter :=
  match registered with
  | some r => some { a with v3 := r.v3 }
  | none =>
    if !is_valid_pid a.v3 || is_registered_pid store none a.v3 none then
      match get_unique_v3 store gen k fuel with
      | some g => some { a with v3 := some g }
      | none => none
    else
      some a

/-- `PidRequesterXML._add_pid_v2`: overwrite with the registered v2 when
the record was resolved, its v2 is truthy and differs; then allocate a
fresh v2 when the resulting value is not a valid 23-character pid. -/
def add_pid_v2 (store : List RegRecord) (gen : Nat → String) (k fuel : Nat)
    (a : Adapter) (registered : Option RegRecord) : Option Adapter :=
  let a1 :=
    match registered with
    | some r => if truthyS r.v2 && !decide (a.v2 = r.v2) then { a with v2 := r.v2 } else a
    | none => a
  if !is_valid_pid a1.v2 then
    match get_unique_v2 store gen k fuel with
    | some g => some { a1 with v2 := some g }
    | none => none
  else
    some a1

/-- The v2-carry-over rule as claim C4 words it (refinement comparison
only): overwrite whenever the registered record's v2 differs from the
incoming one, with no requirement that the registered v2 be non-empty. -/
def add_pid_v2_by_claim (store : List RegRecord) (gen : Nat → String) (k fuel : Nat)
    (a : Adapter) (registered : Option RegRecord) : Option Adapter :=
  let a1 :=
    match registered with
    | some r => if !decide (a.v2 = r.v2) then { a with v2 := r.v2 } else a
    | none => a
  if !is_valid_pid a1.v2 then
    match get_unique_v2 store gen k fuel with
    | some g => some { a1 with v2 := some g }
    | none => none
  else
    some a1

/-- The intermediate v2 after the carry-over step of `_add_pid_v2`, used to
state the amended claim C4. -/
def carried_v2 (a : Adapter) (registered : Option RegRecord) : Option String :=
  match registered with
  | some r => if truthyS r.v2 && !decide (a.v2 = r.v2) then r.v2 else a.v2
  | none => a.v2

/-- `PidRequesterXML._add_aop_pid`: carry the registered aop_pid over when
it is truthy; never clear an incoming value. -/
def add_aop_pid (a : Adapter) (registered : Option RegRecord) : Adapter :=
  match registered with
  | some r => if truthyS r.aop_pid then { a with aop_pid := r.aop_pid } else a
  | none => a

/-- `PidRequesterXML.evaluate_registration`: refuse only an ahead-of-print
submission over a record already anchored to an issue. -/
def evaluate_registration (a : Adapter) (registered : Option RegRecord) : PyResult Bool :=
  if adapter_is_aop a && (match registered with
      | some r => !rec_is_aop r
      | none => false) then
    .raised .forbidden
  else
    .ok true

/-- `PidRequesterXML.validate_query_params`: the three-group
minimum-discrimination gate. -/
def validate_query_params (ps : QueryParams) : PyResult Bool :=
  if !(truthyS (pget ps .journal__issn_print) || truthyS (pget ps .journal__issn_electronic)) then
    .raised .notEnoughParams
  else if !(truthyS (pget ps .article_pub_year) || truthyS (pget ps .issue__pub_year)) then
    .raised .notEnoughParams
  else if truthyS (pget ps .main_doi) || truthyS (pget ps .fpage)
      || truthyS (pget ps .elocation_id) then
    .ok true
  else if !(truthyS (pget ps .z_surnames) || truthyS (pget ps .z_collab)
      || truthyS (pget ps .z_links) || truthyS (pget ps .pkg_name)) then
    .raised .notEnoughParams
  else
    .ok true

/-- `PidRequesterXML._query_document`: walk the tiers in order, validating
each; zero matches tries the next tier, one match returns it, several raise
`QueryDocumentMultipleObjectsReturnedError`, exhaustion returns `None`. -/
def query_document (store : List RegRecord) : List QueryParams → PyResult (Option RegRecord)
  | [] => .ok none
  | ps :: rest =>
    match validate_query_params ps with
    | .raised e => .raised e
    | .ok _ =>
      match store.filter (matchesParams ps) with
      | [] => query_document store rest
      | [r] => .ok (some r)
      | _ :: _ :: _ => .raised .multipleReturned

/-- `PidRequesterXML.set_current_version`: create and attach a new
`XMLVersion` only when there is no current version or the fingerprint
changed. -/
def set_current_version (r : RegRecord) (pkg_name finger_print xml_content : String) :
    RegRecord :=
  match r.current_version with
  | none =>
    { r with current_version := some (xml_version_create pkg_name finger_print xml_content) }
  | some cv =>
    if !decide (cv.finger_print = finger_print) then
      { r with current_version := some (xml_version_create pkg_name finger_print xml_content) }
    else
      r

/-- `PidRequesterXML.is_equal_to`: the record has a current version whose
fingerprint equals the incoming one. -/
def is_equal_to (r : RegRecord) (finger_print : String) : Bool :=
  match r.current_version with
  | some cv => decide (cv.finger_print = finger_print)
  | none => false

/-- `PidRequesterXML._complete_pids`: fill the three identifier slots and
report whether the triple changed. -/
def complete_pids (store : List RegRecord) (gen3 gen2 : Nat → String) (fuel : Nat)
    (a : Adapter) (registered : Option RegRecord) : Option (Adapter × Bool) :=
  let before := (a.v2, a.v3, a.aop_pid)
  match add_pid_v3 store gen3 0 fuel a registered with
  | none => none
  | some a1 =>
    match add_pid_v2 store gen2 0 fuel a1 registered with
    | none => none
    | some a2 =>
      let a3 := add_aop_pid a2 registered
      let after := (a3.v2, a3.v3, a3.aop_pid)
      some (a3, !decide (before = after))

/-- `PidRequesterXML._add_data`: re-derive every stored field from the
incoming document (journal and issue via get-or-create, related items
attached to the many-to-many set). -/
def add_data (r : RegRecord) (a : Adapter) (pkg_name : String) : RegRecord :=
  let journal : XMLJournalRec :=
    { issn_electronic := a.journal_issn_electronic, issn_print := a.journal_issn_print }
  { r with
    pkg_name := some pkg_name
    article_pub_year := a.article_pub_year
    v3 := a.v3
    v2 := a.v2
    aop_pid := a.aop_pid
    fpage := a.fpage
    fpage_seq := a.fpage_seq
    lpage := a.lpage
    main_doi := a.main_doi
    main_toc_section := a.main_toc_section
    elocation_id := a.elocation_id
    z_article_titles_texts := a.z_article_titles_texts
    z_surnames := a.z_surnames
    z_collab := a.z_collab
    z_links := a.z_links
    z_partial_body := a.z_partial_body
    journal := some journal
    issue :=
      if truthyS a.volume || truthyS a.number || truthyS a.suppl then
        some { journal := some journal, volume := a.volume, number := a.number,
               suppl := a.suppl, pub_year := a.pub_year }
      else
        none
    related_items := r.related_items ++ a.related_items }

/-- `PidRequesterXML._save`: upsert the record (stamping `updated` on an
existing one, `created` on a new one), re-derive the data fields, store the
caller-supplied sync outcome, force `synchronized = False` with an attached
`SyncFailure` when error details were supplied, then refresh the current
version. -/
def save_record (registered : Option RegRecord) (a : Adapter)
    (pkg_name xml_content finger_print : String) (synchronized : Option Bool)
    (error_type error_msg traceback : Option String) (now : Nat) : RegRecord :=
  let base :=
    match registered with
    | some r => { r with updated := some now }
    | none => { created := some now }
  let base := add_data base a pkg_name
  let base := { base with synchronized := synchronized }
  let base :=
    if truthyS error_msg || truthyS error_type || truthyS traceback then
      { base with synchronized := some false,
                  sync_failure := some { error_type := error_type, error_msg := error_msg } }
    else
      base
  set_current_version base pkg_name finger_print xml_content

/-- The dict built by the `PidRequesterXML.data` property.  Note that
`record_status` can only be `"updated"` or `"created"`. -/
structure DataDict where
  v3 : Option String
  v2 : Option String
  aop_pid : Option String
  pkg_name : Option String
  created : Option Nat
  updated : Option Nat
  record_status : String
  synchronized : Option Bool
  sync_failure : Option SyncFailureRec
deriving DecidableEq, Repr

/-- `PidRequesterXML.data`. -/
def dataOf (r : RegRecord) : DataDict :=
  { v3 := r.v3
    v2 := r.v2
    aop_pid := r.aop_pid
    pkg_name := r.pkg_name
    created := r.created
    updated := r.updated
    record_status := if r.updated.isSome then "updated" else "created"
    synchronized := r.synchronized
    sync_failure := r.sync_failure }

/-- `PidRequesterXML.register`: resolve, gate, complete pids, persist, and
report `data` plus the `xml_changed` flag.  The exceptions the source
catches and converts into a `PidRequesterBadRequest` payload are reported
here through `PyResult.raised`. -/
def register (store : List RegRecord) (gen3 gen2 : Nat → String) (fuel : Nat)
    (fingerprintFn : String → String) (a : Adapter) (pkg_name : String)
    (synchronized : Option Bool) (error_type error_msg traceback : Option String)
    (now : Nat) : PyResult (DataDict × Bool) :=
  match query_document store a.query_list with
  | .raised e => .raised e
  | .ok registered =>
    match evaluate_registration a registered with
    | .raised e => .raised e
    | .ok _ =>
      match complete_pids store gen3 gen2 fuel a registered with
      | none => .raised .allocDiverged
      | some (a2, xml_changed) =>
        let xml_content := adapter_tostring a2
        let finger_print := fingerprintFn xml_content
        let saved := save_record registered a2 pkg_name xml_content finger_print
          synchronized error_type error_msg traceback now
        .ok (dataOf saved, xml_changed)

/-- `PidRequesterXML.unsynchronized`: `filter(synchronized=False)` — only
records whose flag is exactly `False`, not `None`. -/
def unsynchronized (store : List RegRecord) : List RegRecord :=
  store.filter (fun r => decide (r.synchronized = some false))

/-- The dict returned by `check_registration_demand` on the success path. -/
structure Demand where
  registered_data : Option DataDict
  required_local_registration : Bool
  required_remote_registration : Bool
deriving DecidableEq, Repr

/-- Result of `check_registration_demand`: either the structured error dict
(`errdict`) built in the `except` branch, or the demand dict. -/
inductive DemandResult where
  | errdict (e : RegError)
  | demand (d : Demand)
deriving DecidableEq, Repr

/-- `PidRequesterXML.check_registration_demand`: resolve the record,
converting resolution errors into an error dict, then compute the local
and remote registration demand. -/
def check_registration_demand (store : List RegRecord) (tiers : List QueryParams)
    (finger_print : String) : DemandResult :=
  match query_document store tiers with
  | .raised e => .errdict e
  | .ok registered =>
    let required_remote :=
      match registered with
      | none => true
      | some r => !is_equal_to r finger_print || !truthyB r.synchronized
    let required_local := registered.isNone || required_remote
    .demand
      { registered_data := registered.map dataOf
        required_local_registration := required_local
        required_remote_registration := required_remote }

/-!
Embedding of `split_processing_instruction_doctype_declaration_and_xml`
and `XMLWithPre.tostring` (src/xmlsps/xml_sps_lib.py).  Python strings are
`List Char`; `find`/`rfind`/`replace`/`strip`/slicing follow Python
semantics (`rfind` returning `-1` is `none`, and the source's `if p:` test,
which treats `-1` as found and `0` as not found, is reproduced as written).
The lxml tree is modelled as the verbatim source text of the root element,
with `etree.fromstring`/`etree.tostring` as the identity — the best case
for the round-trip claim, so any failure of the claim in this model is a
failure against every serializer.
-/

/-- Python string type for the splitter. -/
abbrev PyStr := List Char

/-- The whitespace characters `str.strip()` removes. -/
def isPySpace (c : Char) : Bool :=
  c = ' ' || c = '\t' || c = '\n' || c = '\r' || c = '\x0b' || c = '\x0c'

/-- `s.lstrip()`. -/
def pyLStrip (s : PyStr) : PyStr := s.dropWhile isPySpace

/-- `s.rstrip()`. -/
def pyRStrip (s : PyStr) : PyStr := (s.reverse.dropWhile isPySpace).reverse

/-- `s.strip()`. -/
def pyStrip (s : PyStr) : PyStr := pyRStrip (pyLStrip s)

/-- `s.startswith(pat)`. -/
def startswith (s pat : PyStr) : Bool := pat.isPrefixOf s

/-- `s.endswith(pat)`. -/
def endswith (s pat : PyStr) : Bool := pat.isSuffixOf s

/-- Helper for `s.find(pat)`: first index `≥ i` at which `pat` occurs. -/
def pyFindAux (pat : PyStr) : PyStr → Nat → Option Nat
  | [], i => if pat.isPrefixOf ([] : PyStr) then some i else none
  | c :: t, i => if pat.isPrefixOf (c :: t) then some i else pyFindAux pat t (i + 1)

/-- `s.find(pat)`, with `none` for Python's `-1`. -/
def pyFind (s pat : PyStr) : Option Nat := pyFindAux pat s 0

/-- Helper for `s.rfind(pat)`: rightmost occurrence index. -/
def pyRFindAux (pat : PyStr) : PyStr → Nat → Option Nat → Option Nat
  | [], i, best => if pat.isPrefixOf ([] : PyStr) then some i else best
  | c :: t, i, best =>
    pyRFindAux pat t (i + 1) (if pat.isPrefixOf (c :: t) then some i else best)

/-- `s.rfind(pat)`, with `none` for Python's `-1`. -/
def pyRFind (s pat : PyStr) : Option Nat := pyRFindAux pat s 0 none

/-- `s.replace(pat, rep)` for a non-empty `pat` (all the source's calls use
`"/"` or `">"`): replace every non-overlapping occurrence left to right. -/
def pyReplace (pat rep : PyStr) : PyStr → PyStr
  | [] => []
  | c :: t =>
    if h : pat ≠ [] ∧ pat.isPrefixOf (c :: t) = true then
      rep ++ pyReplace pat rep ((c :: t).drop pat.length)
    else
      c :: pyReplace pat rep t
termination_by s => s.length
decreasing_by
  all_goals simp [List.length_drop]
  have hp : 0 < pat.length := List.length_pos.mpr h.1
  omega

/-- `s[p:]` where `p` may be negative (Python slice semantics). -/
def pySliceFrom (s : PyStr) (p : Int) : PyStr :=
  if p < 0 then s.drop (s.length - min (-p).toNat s.length) else s.drop p.toNat

/-- One iteration of the `for starttag in (starttag1, starttag2)` loop of
the splitter: `none` means the start tag was not found and the loop
continues. -/
def splitTry (s starttag : PyStr) : Option (PyStr × PyStr) :=
  match pyFind s starttag with
  | some p =>
    if endswith (pyStrip (s.take p)) ['>'] then some (s.take p, s.drop p)
    else some (([] : PyStr), s)
  | none => none

/-- The `for starttag in (starttag1, starttag2)` loop of the splitter over
a given `endtag`: `starttag1` replaces the slash and turns `>` into a
space, `starttag2` only drops the slash, and exhaustion falls through to
`("", xml_content)`. -/
def splitRestBody (s endtag : PyStr) : PyStr × PyStr :=
  match splitTry s (pyReplace ['>'] [' '] (pyReplace ['/'] [] endtag)) with
  | some r => r
  | none =>
    match splitTry s (pyReplace ['/'] [] endtag) with
    | some r => r
    | none => (([] : PyStr), s)

/-- The `p = xml_content.rfind("</")` half of the splitter, reached when
the content does not end in `/>` or its last `<` was not found.  The
source tests `if p:`, which is false exactly for `p = 0`; `p = -1`
(`rfind` finding nothing, `none` here) passes the test and slices the
last character as the end tag. -/
def splitRest (s : PyStr) : PyStr × PyStr :=
  match pyRFind s ['<', '/'] with
  | some 0 => (([] : PyStr), s)
  | some (n + 1) => splitRestBody s (s.drop (n + 1))
  | none => splitRestBody s (pySliceFrom s (-1))

/-- The splitter after the initial `xml_content.strip()`. -/
def splitStripped (s : PyStr) : PyStr × PyStr :=
  if !startswith s ['<', '?'] && !startswith s ['<', '!'] then
    (([] : PyStr), s)
  else if endswith s ['/', '>'] then
    match pyRFind s ['<'] with
    | some p =>
      if endswith (pyStrip (s.take p)) ['>'] then (s.take p, s.drop p)
      else (([] : PyStr), s)
    | none => splitRest s
  else
    splitRest s

/-- `split_processing_instruction_doctype_declaration_and_xml`: strip the
input, pass plain content through, and otherwise cut the
processing-instruction/doctype preamble off the root element. -/
def split_processing_instruction_doctype_declaration_and_xml (xml_content : PyStr) :
    PyStr × PyStr :=
  splitStripped (pyStrip xml_content)

/-- `XMLWithPre`, with the tree kept as the verbatim source text of the
root element (ideal parser/serializer model). -/
structure XMLWithPreM where
  xmlpre : PyStr
  xmltree : PyStr
deriving DecidableEq, Repr

/-- `get_xml_with_pre`: split, then parse the remainder (parsing modelled
as keeping the text). -/
def get_xml_with_pre_model (xml_content : PyStr) : XMLWithPreM :=
  let pr := split_processing_instruction_doctype_declaration_and_xml xml_content
  { xmlpre := pr.1, xmltree := pr.2 }

/-- `XMLWithPre.tostring`: the preamble followed by the serialized tree
(serialization modelled as the identity on the kept text). -/
def tostringM (w : XMLWithPreM) : PyStr := w.xmlpre ++ w.xmltree

/-!  Concrete instances used by individual claims' theorems. -/

/-- A concrete 23-character v3, as stored on first registration. -/
def v3C1 : String := "aaaaaaaaaaaaaaaaaaaaav3"

/-- A concrete 23-character v2, as stored on first registration. -/
def v2C1 : String := "bbbbbbbbbbbbbbbbbbbbbv2"

/-- A constant candidate generator for scenarios that never allocate. -/
def genC1 : Nat → String := fun _ => "ggggggggggggggggggggggg"

/-- The single (valid, uniquely matching) query tier of the retry
scenario. -/
def qpC1 : QueryParams :=
  [(.journal__issn_electronic, some "1234-5678"),
   (.article_pub_year, some "2022"),
   (.main_doi, some "10.1/X")]

/-- The retry submission: byte-identical to the registered record's
current version (same body and identifier slots). -/
def aC1 : Adapter :=
  { body := "B"
    v2 := some v2C1
    v3 := some v3C1
    journal_issn_electronic := some "1234-5678"
    article_pub_year := some "2022"
    main_doi := some "10.1/X"
    query_list := [qpC1] }

/-- The record left by the first registration of `aC1`: its current
version holds exactly the bytes `adapter_tostring aC1` and their
fingerprint (the fingerprint function is taken as the identity, which is
all determinism requires). -/
def rC1 : RegRecord :=
  { journal := some { issn_electronic := some "1234-5678", issn_print := none }
    issue := none
    current_version := some
      { finger_print := adapter_tostring aC1
        pkg_name := "pkg"
        xml_content := adapter_tostring aC1 }
    pkg_name := some "pkg"
    v3 := some v3C1
    v2 := some v2C1
    article_pub_year := some "2022"
    main_doi := some "10.1/X"
    synchronized := some true
    created := some 1
    updated := none }

/-- C4 counterexample input: an incoming document carrying a valid
23-character v2. -/
def aC4 : Adapter := { v2 := some "AAAAAAAAAAAAAAAAAAAAAAA" }

/-- C4 counterexample input: a resolved registered record whose `v2`
column is null. -/
def rC4 : RegRecord := { v2 := none }

/-!  Helper lemmas shared across claims. -/

theorem get_unique_v3_fresh (store : List RegRecord) (gen : Nat → String) :
    ∀ fuel k g, get_unique_v3 store gen k fuel = some g →
      is_registered_pid store none (some g) none = false ∧ ∃ j, g = gen j := by
  intro fuel
  induction fuel with
  | zero => intro k g h; simp [get_unique_v3] at h
  | succ n ih =>
    intro k g h
    unfold get_unique_v3 at h
    cases hreg : is_registered_pid store none (some (gen k)) none with
    | true =>
      rw [hreg] at h
      simp only [if_pos] at h
      exact ih (k + 1) g h
    | false =>
      rw [hreg] at h
      simp only [Bool.false_eq_true, if_false, Option.some.injEq] at h
      subst h
      exact ⟨hreg, k, rfl⟩

theorem get_unique_v2_fresh (store : List RegRecord) (gen : Nat → String) :
    ∀ fuel k g, get_unique_v2 store gen k fuel = some g →
      is_registered_pid store (some g) none none = false ∧ ∃ j, g = gen j := by
  intro fuel
  induction fuel with
  | zero => intro k g h; simp [get_unique_v2] at h
  | succ n ih =>
    intro k g h
    unfold get_unique_v2 at h
    cases hreg : is_registered_pid store (some (gen k)) none none with
    | true =>
      rw [hreg] at h
      simp only [if_pos] at h
      exact ih (k + 1) g h
    | false =>
      rw [hreg] at h
      simp only [Bool.false_eq_true, if_false, Option.some.injEq] at h
      subst h
      exact ⟨hreg, k, rfl⟩

theorem splitTry_concat (s t r1 r2 : PyStr) (h : splitTry s t = some (r1, r2)) :
    r1 ++ r2 = s := by
  unfold splitTry at h
  split at h
  · split at h
    · simp only [Option.some.injEq, Prod.mk.injEq] at h
      obtain ⟨h1, h2⟩ := h
      rw [← h1, ← h2]
      exact List.take_append_drop _ s
    · simp only [Option.some.injEq, Prod.mk.injEq] at h
      obtain ⟨h1, h2⟩ := h
      rw [← h1, ← h2]
      rfl
  · exact absurd h (by simp)

theorem splitRestBody_concat (s e : PyStr) :
    (splitRestBody s e).1 ++ (splitRestBody s e).2 = s := by
  unfold splitRestBody
  cases h1 : splitTry s (pyReplace ['>'] [' '] (pyReplace ['/'] [] e)) with
  | some r => exact splitTry_concat _ _ _ _ h1
  | none =>
    cases h2 : splitTry s (pyReplace ['/'] [] e) with
    | some r => exact splitTry_concat _ _ _ _ h2
    | none => rfl

theorem splitRest_concat (s : PyStr) : (splitRest s).1 ++ (splitRest s).2 = s := by
  unfold splitRest
  split
  · rfl
  · exact splitRestBody_concat _ _
  · exact splitRestBody_concat _ _

theorem splitStripped_concat (s : PyStr) :
    (splitStripped s).1 ++ (splitStripped s).2 = s := by
  unfold splitStripped
  split
  · rfl
  · split
    · split
      · split
        · exact List.take_append_drop _ s
        · rfl
      · exact splitRest_concat s
    · exact splitRest_concat s

theorem split_concat (x : PyStr) :
    (split_processing_instruction_doctype_declaration_and_xml x).1 ++
      (split_processing_instruction_doctype_declaration_and_xml x).2 = pyStrip x := by
  unfold split_processing_instruction_doctype_declaration_and_xml
  exact splitStripped_concat (pyStrip x)

/-- Claim C2: `evaluate_registration` raises
`ForbiddenPidRequesterXMLRegistrationError` if and only if the incoming
document is ahead-of-print, a registered record exists, and that record is
not ahead-of-print; every other combination (no existing record, existing
is AOP, incoming is not AOP) is accepted. -/
theorem evaluate_registration_iff (a : Adapter) (registered : Option RegRecord) :
    (evaluate_registration a registered = .raised .forbidden ↔
      adapter_is_aop a = true ∧ ∃ r, registered = some r ∧ rec_is_aop r = false)
    ∧ (¬(adapter_is_aop a = true ∧ ∃ r, registered = some r ∧ rec_is_aop r = false) →
      evaluate_registration a registered = .ok true) := by
  unfold evaluate_registration
  cases registered with
  | none => simp
  | some r =>
    by_cases ha : adapter_is_aop a = true
    · by_cases hr : rec_is_aop r = true
      · simp [ha, hr]
      · simp [ha, Bool.eq_false_iff.mpr hr]
    · simp [Bool.eq_false_iff.mpr ha]

/-- Witness for C2: an ahead-of-print submission over a record anchored to
an issue is refused. -/
theorem evaluate_registration_iff_witness :
    evaluate_registration ({} : Adapter)
      (some ({ issue := some { journal := none, volume := some "1", number := none,
                               suppl := none, pub_year := none } } : RegRecord)) =
      .raised .forbidden := by
  exact (evaluate_registration_iff {} _).1.mpr ⟨by decide, _, rfl, by decide⟩

/-- Claim C5: `validate_query_params` accepts a tier exactly when it has at
least one journal issn, at least one publication year, and at least one
strong discriminator (main_doi, fpage, elocation_id) or, failing that, at
least one weak discriminator (z_surnames, z_collab, z_links, pkg_name);
any tier missing one of the three groups raises
`NotEnoughParametersToGetDocumentRecordError`. -/
theorem validate_query_params_iff (ps : QueryParams) :
    (validate_query_params ps = .ok true ↔
      (truthyS (pget ps .journal__issn_electronic) = true ∨
        truthyS (pget ps .journal__issn_print) = true)
      ∧ (truthyS (pget ps .article_pub_year) = true ∨
        truthyS (pget ps .issue__pub_year) = true)
      ∧ ((truthyS (pget ps .main_doi) = true ∨ truthyS (pget ps .fpage) = true ∨
            truthyS (pget ps .elocation_id) = true)
          ∨ (truthyS (pget ps .z_surnames) = true ∨ truthyS (pget ps .z_collab) = true ∨
            truthyS (pget ps .z_links) = true ∨ truthyS (pget ps .pkg_name) = true)))
    ∧ (¬((truthyS (pget ps .journal__issn_electronic) = true ∨
        truthyS (pget ps .journal__issn_print) = true)
      ∧ (truthyS (pget ps .article_pub_year) = true ∨
        truthyS (pget ps .issue__pub_year) = true)
      ∧ ((truthyS (pget ps .main_doi) = true ∨ truthyS (pget ps .fpage) = true ∨
            truthyS (pget ps .elocation_id) = true)
          ∨ (truthyS (pget ps .z_surnames) = true ∨ truthyS (pget ps .z_collab) = true ∨
            truthyS (pget ps .z_links) = true ∨ truthyS (pget ps .pkg_name) = true))) →
      validate_query_params ps = .raised .notEnoughParams) := by
  unfold validate_query_params
  generalize truthyS (pget ps .journal__issn_print) = b1
  generalize truthyS (pget ps .journal__issn_electronic) = b2
  generalize truthyS (pget ps .article_pub_year) = b3
  generalize truthyS (pget ps .issue__pub_year) = b4
  generalize truthyS (pget ps .main_doi) = b5
  generalize truthyS (pget ps .fpage) = b6
  generalize truthyS (pget ps .elocation_id) = b7
  generalize truthyS (pget ps .z_surnames) = b8
  generalize truthyS (pget ps .z_collab) = b9
  generalize truthyS (pget ps .z_links) = b10
  generalize truthyS (pget ps .pkg_name) = b11
  cases b1 <;> cases b2 <;> cases b3 <;> cases b4 <;> cases b5 <;> cases b6 <;>
    cases b7 <;> cases b8 <;> cases b9 <;> cases b10 <;> cases b11 <;> decide

/-- Witness for C5: journal issn + pub year + only the weak discriminator
pkg_name is accepted. -/
theorem validate_query_params_iff_witness :
    validate_query_params
      [(.journal__issn_print, some "0001-3714"), (.article_pub_year, some "2020"),
       (.pkg_name, some "pkgName")] = .ok true := by
  exact (validate_query_params_iff _).1.mpr (by decide)

/-- Claim C3: `_add_pid_v3` always takes the registered record's v3 when a
record was resolved; otherwise it allocates a fresh unused v3 exactly when
the incoming v3 is absent, not 23 characters long, or already used by
another record (with no record resolved, every store record is another
record), and keeps the incoming v3 unchanged otherwise. -/
theorem add_pid_v3_cases (store : List RegRecord) (gen : Nat → String) (k fuel : Nat)
    (a : Adapter) (registered : Option RegRecord) :
    (∀ r, registered = some r →
        add_pid_v3 store gen k fuel a registered = some { a with v3 := r.v3 })
    ∧ (registered = none → is_valid_pid a.v3 = true →
        is_registered_pid store none a.v3 none = false →
        add_pid_v3 store gen k fuel a registered = some a)
    ∧ (registered = none →
        (is_valid_pid a.v3 = false ∨ is_registered_pid store none a.v3 none = true) →
        ∀ a2, add_pid_v3 store gen k fuel a registered = some a2 →
          (∃ j, a2.v3 = some (gen j)) ∧ is_registered_pid store none a2.v3 none = false
          ∧ a2 = { a with v3 := a2.v3 }) := by
  refine ⟨?_, ?_, ?_⟩
  · rintro r rfl
    rfl
  · rintro rfl hv hr
    unfold add_pid_v3
    rw [hv, hr]
    rfl
  · rintro rfl hcond a2 h
    unfold add_pid_v3 at h
    have hcond2 : (!is_valid_pid a.v3 || is_registered_pid store none a.v3 none) = true := by
      rcases hcond with h1 | h1 <;> simp [h1]
    rw [hcond2] at h
    rw [if_pos rfl] at h
    cases hg : get_unique_v3 store gen k fuel with
    | none => rw [hg] at h; exact absurd h (by simp)
    | some g =>
      rw [hg] at h
      obtain ⟨hfresh, j, hj⟩ := get_unique_v3_fresh store gen fuel k g hg
      simp only [Option.some.injEq] at h
      subst h
      exact ⟨⟨j, by simp [hj]⟩, by simpa using hfresh, rfl⟩

/-- Witness for C3: with a resolved record, the incoming v3 is replaced by
the registered one. -/
theorem add_pid_v3_cases_witness :
    add_pid_v3 [] genC1 0 1 ({} : Adapter)
        (some ({ v3 := some "xxxxxxxxxxxxxxxxxxxxxx3" } : RegRecord)) =
      some { ({} : Adapter) with v3 := some "xxxxxxxxxxxxxxxxxxxxxx3" } := by
  exact (add_pid_v3_cases [] genC1 0 1 {} _).1 _ rfl

/-- The behaviour of `_add_pid_v2` in one equation: carry over per
`carried_v2`, then keep the result when valid and allocate otherwise. -/
theorem add_pid_v2_eq (store : List RegRecord) (gen : Nat → String) (k fuel : Nat)
    (a : Adapter) (registered : Option RegRecord) :
    add_pid_v2 store gen k fuel a registered =
      if is_valid_pid (carried_v2 a registered) = true then
        some { a with v2 := carried_v2 a registered }
      else
        match get_unique_v2 store gen k fuel with
        | some g => some { a with v2 := some g }
        | none => none := by
  cases registered with
  | none =>
    cases hv : is_valid_pid a.v2 with
    | true => simp [add_pid_v2, carried_v2, hv]
    | false => simp [add_pid_v2, carried_v2, hv]
  | some r =>
    cases hov : truthyS r.v2 && !decide (a.v2 = r.v2) with
    | true =>
      cases hv : is_valid_pid r.v2 with
      | true => simp [add_pid_v2, carried_v2, hov, hv]
      | false => simp [add_pid_v2, carried_v2, hov, hv]
    | false =>
      cases hv : is_valid_pid a.v2 with
      | true => simp [add_pid_v2, carried_v2, hov, hv]
      | false => simp [add_pid_v2, carried_v2, hov, hv]

/-- Counterexample to C4 as stated: when the resolved record's v2 is null
and the incoming v2 is a valid 23-character token, the code keeps the
incoming v2, while the claim's rule (overwrite whenever the values differ,
formalised by `add_pid_v2_by_claim`) would discard it and allocate a fresh
one. -/
theorem add_pid_v2_claim_counterexample :
    add_pid_v2 [] genC1 0 1 aC4 (some rC4) ≠
      add_pid_v2_by_claim [] genC1 0 1 aC4 (some rC4) := by
  decide

/-- Claim C4 (amended): the incoming v2 is overwritten with the registered
record's v2 only when the record was resolved and its v2 is NON-EMPTY and
differs from the incoming one (`carried_v2`); then, regardless of source,
if the resulting v2 is not a valid 23-character token a fresh unused v2 is
allocated, and otherwise it is kept. -/
theorem add_pid_v2_amended (store : List RegRecord) (gen : Nat → String) (k fuel : Nat)
    (a : Adapter) (registered : Option RegRecord) :
    (is_valid_pid (carried_v2 a registered) = true →
        add_pid_v2 store gen k fuel a registered =
          some { a with v2 := carried_v2 a registered })
    ∧ (is_valid_pid (carried_v2 a registered) = false →
        ∀ a2, add_pid_v2 store gen k fuel a registered = some a2 →
          (∃ j, a2.v2 = some (gen j)) ∧ is_registered_pid store a2.v2 none none = false
          ∧ a2 = { a with v2 := a2.v2 }) := by
  rw [add_pid_v2_eq]
  constructor
  · intro hv
    rw [if_pos hv]
  · intro hv a2 h
    rw [if_neg (by simp [hv])] at h
    cases hg : get_unique_v2 store gen k fuel with
    | none => rw [hg] at h; exact absurd h (by simp)
    | some g =>
      rw [hg] at h
      obtain ⟨hfresh, j, hj⟩ := get_unique_v2_fresh store gen fuel k g hg
      simp only [Option.some.injEq] at h
      subst h
      exact ⟨⟨j, by simp [hj]⟩, by simpa using hfresh, rfl⟩

/-- Witness for the amended C4: a valid incoming v2 with no registered
record is kept unchanged. -/
theorem add_pid_v2_amended_witness :
    add_pid_v2 [] genC1 0 1 aC4 none = some aC4 := by
  exact (add_pid_v2_amended [] genC1 0 1 aC4 none).1 (by decide)

/-- Claim C7: `set_current_version` creates a new `XMLVersion` and makes it
current exactly when there is no current version or the incoming
fingerprint differs from the current one; with equal fingerprints the
record is untouched; and in every case the resulting current version
carries the incoming fingerprint. -/
theorem set_current_version_spec (r : RegRecord) (pkg fp content : String) :
    ((r.current_version = none ∨ ∃ cv, r.current_version = some cv ∧ cv.finger_print ≠ fp) →
        set_current_version r pkg fp content =
          { r with current_version := some (xml_version_create pkg fp content) })
    ∧ ((∃ cv, r.current_version = some cv ∧ cv.finger_print = fp) →
        set_current_version r pkg fp content = r)
    ∧ (∃ cv, (set_current_version r pkg fp content).current_version = some cv ∧
        cv.finger_print = fp) := by
  refine ⟨?_, ?_, ?_⟩
  · rintro (h | ⟨cv, hcv, hne⟩)
    · unfold set_current_version
      rw [h]
    · unfold set_current_version
      rw [hcv]
      dsimp only
      rw [if_pos (by simp [hne])]
  · rintro ⟨cv, hcv, heq⟩
    unfold set_current_version
    rw [hcv]
    dsimp only
    rw [if_neg (by simp [heq])]
  · unfold set_current_version
    cases hcv : r.current_version with
    | none => exact ⟨_, rfl, rfl⟩
    | some cv =>
      dsimp only
      by_cases h : cv.finger_print = fp
      · rw [if_neg (by simp [h])]
        exact ⟨cv, hcv, h⟩
      · rw [if_pos (by simp [h])]
        exact ⟨_, rfl, rfl⟩

/-- Witness for C7: a record with no current version gets one carrying the
incoming fingerprint. -/
theorem set_current_version_spec_witness :
    set_current_version ({} : RegRecord) "p" "f" "c" =
      { ({} : RegRecord) with current_version := some (xml_version_create "p" "f" "c") } := by
  exact (set_current_version_spec {} "p" "f" "c").1 (Or.inl rfl)

/-- `set_current_version` never touches the `synchronized` flag. -/
theorem set_current_version_synchronized (r : RegRecord) (pkg fp content : String) :
    (set_current_version r pkg fp content).synchronized = r.synchronized := by
  unfold set_current_version
  cases r.current_version with
  | none => rfl
  | some cv =>
    dsimp only
    split <;> rfl

/-- Claim C10: a record persisted by `_save` with `synchronized=None` and
no error details keeps `synchronized = None` (not `False`), and
`unsynchronized()` — which selects exactly `synchronized == False` — never
returns it, so it is never picked up by the remote-sync retry sweep. -/
theorem save_none_sync_not_swept (registered : Option RegRecord) (a : Adapter)
    (pkg xml fp : String) (now : Nat) :
    (save_record registered a pkg xml fp none none none none now).synchronized = none
    ∧ ∀ store : List RegRecord,
        save_record registered a pkg xml fp none none none none now ∉ unsynchronized store := by
  have hs : (save_record registered a pkg xml fp none none none none now).synchronized
      = none := by
    unfold save_record
    simp only [truthyS, Bool.or_self, Bool.false_eq_true, if_false]
    rw [set_current_version_synchronized]
  refine ⟨hs, fun store hmem => ?_⟩
  have hp := (List.mem_filter.mp hmem).2
  rw [hs] at hp
  exact absurd hp (by simp)

/-- Witness for C10: a freshly saved record with `synchronized=None` is
absent even from the sweep over a store that contains it. -/
theorem save_none_sync_not_swept_witness :
    (save_record none ({} : Adapter) "p" "x" "f" none none none none 5).synchronized = none
    ∧ save_record none ({} : Adapter) "p" "x" "f" none none none none 5 ∉
        unsynchronized [save_record none ({} : Adapter) "p" "x" "f" none none none none 5] := by
  have h := save_none_sync_not_swept none ({} : Adapter) "p" "x" "f" 5
  exact ⟨h.1, h.2 _⟩

/-- Claim C6: `_query_document` walks the ordered tiers in sequence — a
tier with zero matches is skipped in favour of the next, the first tier
with exactly one match returns that record immediately, a tier matching
more than one record raises
`QueryDocumentMultipleObjectsReturnedError`, and exhausting all tiers
yields `None`. -/
theorem query_document_tier_semantics (store : List RegRecord) :
    (∀ t rest, validate_query_params t = .ok true →
        store.filter (matchesParams t) = [] →
        query_document store (t :: rest) = query_document store rest)
    ∧ (∀ t rest r, validate_query_params t = .ok true →
        store.filter (matchesParams t) = [r] →
        query_document store (t :: rest) = .ok (some r))
    ∧ (∀ t rest, validate_query_params t = .ok true →
        2 ≤ (store.filter (matchesParams t)).length →
        query_document store (t :: rest) = .raised .multipleReturned)
    ∧ (∀ tiers : List QueryParams,
        (∀ t ∈ tiers, validate_query_params t = .ok true ∧
          store.filter (matchesParams t) = []) →
        query_document store tiers = .ok none) := by
  refine ⟨?_, ?_, ?_, ?_⟩
  · intro t rest hv hf
    simp [query_document, hv, hf]
  · intro t rest r hv hf
    simp [query_document, hv, hf]
  · intro t rest hv hlen
    match hf : store.filter (matchesParams t) with
    | [] => rw [hf] at hlen; simp at hlen
    | [r] => rw [hf] at hlen; simp at hlen
    | x :: y :: zs => simp [query_document, hv, hf]
  · intro tiers hall
    induction tiers with
    | nil => rfl
    | cons t ts ih =>
      have ht := hall t (by simp)
      have hts : ∀ u ∈ ts, validate_query_params u = .ok true ∧
          store.filter (matchesParams u) = [] := by
        intro u hu
        exact hall u (by simp [hu])
      simp [query_document, ht.1, ht.2, ih hts]

/-- Witness for C6: a single tier matching exactly one record returns it. -/
theorem query_document_tier_semantics_witness :
    query_document
      [({ journal := some { issn_electronic := some "e", issn_print := none },
          article_pub_year := some "2020", main_doi := some "d" } : RegRecord)]
      [[(.journal__issn_electronic, some "e"), (.article_pub_year, some "2020"),
        (.main_doi, some "d")]] =
      .ok (some { journal := some { issn_electronic := some "e", issn_print := none },
                  article_pub_year := some "2020", main_doi := some "d" }) := by
  exact (query_document_tier_semantics _).2.1 _ [] _ (by decide) (by decide)

/-- Claim C9: `check_registration_demand` reports
`required_remote_registration` exactly when no record exists, the current
fingerprint differs from the incoming one, or the record is not
synchronized; `required_local_registration` exactly when no record exists
or remote registration is required; and resolution errors come back as a
structured error dict instead of being raised. -/
theorem check_registration_demand_spec (store : List RegRecord)
    (tiers : List QueryParams) (fp : String) :
    (∀ e, query_document store tiers = .raised e →
        check_registration_demand store tiers fp = .errdict e)
    ∧ (∀ r d, query_document store tiers = .ok (some r) →
        check_registration_demand store tiers fp = .demand d →
        (d.required_remote_registration = true ↔
          (is_equal_to r fp = false ∨ r.synchronized ≠ some true))
        ∧ d.required_local_registration = d.required_remote_registration
        ∧ d.registered_data = some (dataOf r))
    ∧ (∀ d, query_document store tiers = .ok none →
        check_registration_demand store tiers fp = .demand d →
        d.required_remote_registration = true ∧ d.required_local_registration = true
        ∧ d.registered_data = none)
    ∧ (∀ registered, query_document store tiers = .ok registered →
        ∀ e, check_registration_demand store tiers fp ≠ .errdict e) := by
  refine ⟨?_, ?_, ?_, ?_⟩
  · intro e hq
    unfold check_registration_demand
    rw [hq]
  · intro r d hq hd
    unfold check_registration_demand at hd
    rw [hq] at hd
    dsimp only at hd
    simp only [DemandResult.demand.injEq] at hd
    subst hd
    refine ⟨?_, ?_, rfl⟩
    · constructor
      · intro h
        by_cases he : is_equal_to r fp = true
        · right
          rw [he] at h
          simp only [Bool.not_true, Bool.false_or] at h
          intro hsync
          rw [hsync] at h
          simp [truthyB] at h
        · left
          exact Bool.eq_false_iff.mpr he
      · intro h
        rcases h with h | h
        · simp [h]
        · have : truthyB r.synchronized = false := by
            cases hs : r.synchronized with
            | none => rfl
            | some b =>
              cases b with
              | true => exact absurd hs h
              | false => rfl
          simp [this]
    · simp
  · intro d hq hd
    unfold check_registration_demand at hd
    rw [hq] at hd
    dsimp only at hd
    simp only [DemandResult.demand.injEq] at hd
    subst hd
    exact ⟨rfl, rfl, rfl⟩
  · intro registered hq e
    unfold check_registration_demand
    rw [hq]
    dsimp only
    intro hcon
    exact absurd hcon (by simp)

/-- Witness for C9: with no registered record, both local and remote
registration are demanded and no error dict is produced. -/
theorem check_registration_demand_spec_witness :
    check_registration_demand [] [] "f" =
      .demand { registered_data := none, required_local_registration := true,
                required_remote_registration := true }
    ∧ (({ registered_data := none, required_local_registration := true,
          required_remote_registration := true } : Demand).required_remote_registration = true
        ∧ ({ registered_data := none, required_local_registration := true,
             required_remote_registration := true } : Demand).required_local_registration
            = true) := by
  have h := (check_registration_demand_spec [] [] "f").2.2.1
    { registered_data := none, required_local_registration := true,
      required_remote_registration := true } rfl rfl
  exact ⟨rfl, h.1, h.2.1⟩

/-- Counterexample to C8 as stated: the splitter begins with
`xml_content.strip()`, so the well-formed input `"<article/>\n"` (no
processing instruction) loses its trailing newline and the round trip is
not the identity, even with the ideal byte-preserving tree serializer of
this model. -/
theorem roundtrip_counterexample :
    tostringM (get_xml_with_pre_model ("<article/>\n".toList)) ≠ "<article/>\n".toList := by
  decide

/-- Claim C8 (amended): for every input, parsing followed by serialization
reproduces the input stripped of leading and trailing whitespace — hence
the identity exactly on inputs with no surrounding whitespace — given the
tree serializer reproduces the parsed text verbatim. -/
theorem roundtrip_reproduces_stripped_input (x : PyStr) :
    tostringM (get_xml_with_pre_model x) = pyStrip x := by
  simp only [tostringM, get_xml_with_pre_model]
  exact split_concat x

/-- Claim C1 (evaluation at the failing input): re-registering content
byte-identical to the registered record's current version keeps
v2/v3/aop_pid unchanged, reports `xml_changed = false`, and creates no new
`XMLVersion` — but returns `record_status = "updated"`, never the
`"retrieved"` promised by the claim and by `register`'s own docstring,
because `PidRequesterXML.data` only ever yields `"updated"` or
`"created"` and `_save` always stamps `updated` on an existing record. -/
theorem register_retry_returns_updated :
    register [rC1] genC1 genC1 3 (fun s => s) aC1 "pkg" none none none none 9 =
      .ok ({ v3 := some v3C1, v2 := some v2C1, aop_pid := none, pkg_name := some "pkg",
             created := some 1, updated := some 9, record_status := "updated",
             synchronized := none, sync_failure := none }, false)
    ∧ (save_record (some rC1) aC1 "pkg" (adapter_tostring aC1) (adapter_tostring aC1)
        none none none none 9).current_version = rC1.current_version := by
  constructor
  · rfl
  · rfl
